import Mathlib

/-!
Verification of the Account Relay in `app.py` (single-file Flask adapter).

The embedding models the decoded JSON request body, Python truthiness,
dictionary access (`get`, indexing) and `str.strip`, the payload builder at
lines 154-166, the upstream call wrapper `AccountCreationAPI.create_account`
(lines 30-86), and the endpoint handler `create_simple_account`
(lines 112-190).  Python exceptions raised inside the handler body are
modelled with `Except PyError`; the `except Exception` catch-all at line 185
maps any such error to the fixed 500 envelope.  The upstream HTTP call is a
black box, modelled by an `UpstreamOutcome` parameter describing how the
`requests.post` call ends (a response with a status and body, a timeout, a
connection error, another request exception, or an unexpected exception).
-/

namespace App

/-- Decoded JSON values, as produced by `request.get_json()`.  Numbers are
modelled as integers (the claims only use integer inputs); objects are
association lists with the first binding of a key authoritative, matching
unique-key Python dicts. -/
inductive Json where
  | null
  | bool (b : Bool)
  | num (n : Int)
  | str (s : String)
  | arr (elems : List Json)
  | obj (entries : List (String × Json))

/-- Python truthiness of a decoded JSON value, as used by `not data`,
`not data.get(field)` and `if missing_fields`. -/
def Json.truthy : Json → Bool
  | .null => false
  | .bool b => b
  | .num n => n != 0
  | .str s => s != ""
  | .arr elems => !elems.isEmpty
  | .obj entries => !entries.isEmpty

/-- Python exceptions that can be raised inside the handler body.  The carried
strings stand for the interpreter diagnostic text; the theorems show this text
never reaches a client-facing response. -/
inductive PyError where
  | attributeError (msg : String)
  | keyError (key : String)
  | typeError (msg : String)

/-- Python type name of a decoded JSON value, used only to build diagnostic
text inside `PyError`. -/
def pyTypeName : Json → String
  | .null => "NoneType"
  | .bool _ => "bool"
  | .num _ => "int"
  | .str _ => "str"
  | .arr _ => "list"
  | .obj _ => "dict"

/-- Lookup in a decoded JSON object: `entries[k]` as an `Option`, the
behaviour of `dict.get(k)` with no default. -/
def pyGet (entries : List (String × Json)) (k : String) : Option Json :=
  (entries.find? (fun p => p.1 == k)).map (fun p => p.2)

/-- `data.get(k)` on an arbitrary decoded value: raises `AttributeError` when
`data` is not a dict. -/
def jsonGet (data : Json) (k : String) : Except PyError (Option Json) :=
  match data with
  | .obj entries => .ok (pyGet entries k)
  | v => .error (.attributeError (pyTypeName v ++ " object has no attribute get"))

/-- `data[k]` on an arbitrary decoded value: `KeyError` when the key is
absent, `TypeError` when `data` is not a dict. -/
def pyIndex (data : Json) (k : String) : Except PyError Json :=
  match data with
  | .obj entries =>
    match pyGet entries k with
    | some v => .ok v
    | none => .error (.keyError k)
  | v => .error (.typeError (pyTypeName v ++ " is not subscriptable"))

/-- `s.strip()` on a string: removes leading and trailing whitespace.
Defined structurally over the character list so that proofs can evaluate
it. -/
def strip (s : String) : String :=
  String.mk (((s.data.dropWhile Char.isWhitespace).reverse.dropWhile
    Char.isWhitespace).reverse)

/-- `v.strip()`: trims surrounding whitespace of a string, raises
`AttributeError` on any non-string value. -/
def pyStrip (v : Json) : Except PyError Json :=
  match v with
  | .str s => .ok (.str (strip s))
  | v => .error (.attributeError (pyTypeName v ++ " object has no attribute strip"))

/-- Line 143: the required fields, in order. -/
def required_fields : List String :=
  ["email", "password", "firstname", "lastname", "phoneNumber"]

/-- Line 144 on an object body:
`[field for field in required_fields if not data.get(field)]`. -/
def missing_fields (entries : List (String × Json)) : List String :=
  required_fields.filter (fun field => !((pyGet entries field).getD Json.null).truthy)

/-- Lines 143-144 on an arbitrary body: the list comprehension calls
`data.get` and therefore raises `AttributeError` when `data` is not a dict. -/
def validate (data : Json) : Except PyError (List String) :=
  match data with
  | .obj entries => .ok (missing_fields entries)
  | v => .error (.attributeError (pyTypeName v ++ " object has no attribute get"))

/-- Line 157: the default offer identifier constant. -/
def default_offer : String := "1a3d47dd-ea8c-4529-9e36-8a42499fcc69"

/-- Lines 154-166: build the Match Trade payload.  Evaluation order follows
the Python dict literal: email, password, offer, createAsDepositedAccount,
personalDetails (firstname, lastname), contactDetails (phoneNumber). -/
def build_account_data (data : Json) : Except PyError Json := do
  let email ← pyIndex data "email" >>= pyStrip
  let password ← pyIndex data "password"
  let offer := (← jsonGet data "offer").getD (.str default_offer)
  let createAsDepositedAccount := (← jsonGet data "createAsDepositedAccount").getD (.bool false)
  let firstname ← pyIndex data "firstname" >>= pyStrip
  let lastname ← pyIndex data "lastname" >>= pyStrip
  let phoneNumber ← pyIndex data "phoneNumber" >>= pyStrip
  return Json.obj [
    ("email", email),
    ("password", password),
    ("offer", offer),
    ("createAsDepositedAccount", createAsDepositedAccount),
    ("personalDetails", Json.obj [("firstname", firstname), ("lastname", lastname)]),
    ("contactDetails", Json.obj [("phoneNumber", phoneNumber)])]

/-- Body of the upstream HTTP response, before the parsing at lines 47-50:
either no content, a well-formed JSON body, or non-JSON text. -/
inductive UpstreamBody where
  | empty
  | jsonBody (j : Json)
  | textBody (raw : String)

/-- Lines 47-50: `response.json() if response.content else {}`, with the
`JSONDecodeError` fallback `{"raw_text": response.text}`. -/
def parse_response_body : UpstreamBody → Json
  | .empty => .obj []
  | .jsonBody j => j
  | .textBody raw => .obj [("raw_text", .str raw)]

/-- How the `requests.post` call at lines 36-41 ends.  The strings on the
exception constructors stand for the exception text, which the code logs but
must never return. -/
inductive UpstreamOutcome where
  | response (status : Nat) (body : UpstreamBody)
  | timeout
  | connectionError (msg : String)
  | requestError (msg : String)
  | unexpectedError (msg : String)

/-- Lines 30-86, `AccountCreationAPI.create_account`: the result dict for
each way the outbound call can end.  The payload `account_data` is serialized
and sent but does not influence which branch is taken. -/
def create_account (account_data : Json) (outcome : UpstreamOutcome) : Json :=
  match outcome with
  | .response status body =>
    Json.obj [
      ("success", .bool (status == 200 || status == 201)),
      ("status_code", .num status),
      ("data", parse_response_body body),
      ("message", .str (if status == 200 || status == 201
        then "Account created successfully" else "Account creation failed"))]
  | .timeout =>
    Json.obj [
      ("success", .bool false),
      ("error", .str "Request timed out. Please try again."),
      ("status_code", .null)]
  | .connectionError _ =>
    Json.obj [
      ("success", .bool false),
      ("error", .str "Connection error. Please check your internet connection."),
      ("status_code", .null)]
  | .requestError _ =>
    Json.obj [
      ("success", .bool false),
      ("error", .str "Network error occurred. Please try again."),
      ("status_code", .null)]
  | .unexpectedError _ =>
    Json.obj [
      ("success", .bool false),
      ("error", .str "An unexpected error occurred. Please try again."),
      ("status_code", .null)]

/-- An HTTP response returned to the caller: status code and JSON body. -/
structure HttpResponse where
  status : Nat
  body : Json

/-- Lines 178-180: `status_code = result.get("status_code", 500)` followed by
`if status_code is None: status_code = 500`.  In this program the field is
always a number or null; other shapes cannot occur. -/
def http_status_of_result (result : Json) : Nat :=
  match result with
  | .obj entries =>
    match (pyGet entries "status_code").getD (.num 500) with
    | .null => 500
    | .num n => n.toNat
    | _ => 500
  | _ => 500

/-- The try block of `create_simple_account` (lines 121-183), for a POST
request.  `is_json` is the `request.is_json` content-type check and `data`
the decoded body from `request.get_json()`. -/
def try_create_simple_account (is_json : Bool) (data : Json)
    (outcome : UpstreamOutcome) : Except PyError HttpResponse := do
  if !is_json then
    return ⟨400, Json.obj [("success", .bool false),
      ("error", .str "Content-Type must be application/json")]⟩
  if !data.truthy then
    return ⟨400, Json.obj [("success", .bool false),
      ("error", .str "No JSON data provided")]⟩
  let missing ← validate data
  if !missing.isEmpty then
    return ⟨400, Json.obj [("success", .bool false),
      ("error", .str ("Missing required fields: " ++ String.intercalate ", " missing))]⟩
  let account_data ← build_account_data data
  let result := create_account account_data outcome
  let success ← pyIndex result "success"
  let status := if success.truthy then 200 else http_status_of_result result
  return ⟨status, result⟩

/-- Lines 112-190: the POST handler with its `except Exception` catch-all,
which maps any Python exception raised in the body to the fixed 500
envelope. -/
def create_simple_account (is_json : Bool) (data : Json)
    (outcome : UpstreamOutcome) : HttpResponse :=
  match try_create_simple_account is_json data outcome with
  | .ok r => r
  | .error _ => ⟨500, Json.obj [("success", .bool false),
      ("error", .str "Internal server error occurred")]⟩

/-! ### Helper lemmas -/

theorem except_bind_ok_iff {ε α β : Type} (x : Except ε α) (f : α → Except ε β) (b : β) :
    x >>= f = .ok b ↔ ∃ a, x = .ok a ∧ f a = .ok b := by
  cases x <;> simp [Bind.bind, Except.bind]

theorem pyGet_some_ne_nil {entries : List (String × Json)} {k : String} {v : Json}
    (h : pyGet entries k = some v) : entries ≠ [] := by
  intro hnil
  subst hnil
  simp [pyGet] at h

theorem pyGet_cons (k : String) (v : Json) (entries : List (String × Json)) (g : String) :
    pyGet ((k, v) :: entries) g = if k == g then some v else pyGet entries g := by
  by_cases h : k = g <;> simp [pyGet, List.find?_cons, h]

theorem pyGet_eq_none {entries : List (String × Json)} {k : String}
    (h : ∀ p ∈ entries, p.1 ≠ k) : pyGet entries k = none := by
  unfold pyGet
  rw [List.find?_eq_none.mpr]
  · rfl
  · intro p hp
    simpa using h p hp

theorem pyIndex_obj_eq_ok {entries : List (String × Json)} {k : String} {v : Json} :
    pyIndex (Json.obj entries) k = .ok v ↔ pyGet entries k = some v := by
  unfold pyIndex
  cases h : pyGet entries k <;> simp [h]

theorem pyStrip_eq_ok {v w : Json} (h : pyStrip v = .ok w) :
    ∃ s, v = Json.str s ∧ w = Json.str (strip s) := by
  cases v <;> simp [pyStrip] at h <;> simp [h]

/-- Whenever the five required fields are present and the four stripped ones
are strings, the payload builder succeeds with the literal dict of
lines 154-166. -/
theorem build_account_data_ok (entries : List (String × Json)) (e p f l ph : String)
    (he : pyGet entries "email" = some (.str e))
    (hp : pyGet entries "password" = some (.str p))
    (hf : pyGet entries "firstname" = some (.str f))
    (hl : pyGet entries "lastname" = some (.str l))
    (hph : pyGet entries "phoneNumber" = some (.str ph)) :
    build_account_data (Json.obj entries) = .ok (Json.obj [
      ("email", .str (strip e)),
      ("password", .str p),
      ("offer", (pyGet entries "offer").getD (.str default_offer)),
      ("createAsDepositedAccount",
        (pyGet entries "createAsDepositedAccount").getD (.bool false)),
      ("personalDetails", Json.obj [("firstname", .str (strip f)),
        ("lastname", .str (strip l))]),
      ("contactDetails", Json.obj [("phoneNumber", .str (strip ph))])]) := by
  simp [build_account_data, pyIndex, jsonGet, pyStrip, he, hp, hf, hl, hph,
    Bind.bind, Except.bind, Pure.pure, Except.pure]

/-- Validation passes when the five required fields are bound to non-empty
strings. -/
theorem missing_fields_nil (entries : List (String × Json)) (e p f l ph : String)
    (he : pyGet entries "email" = some (.str e))
    (hp : pyGet entries "password" = some (.str p))
    (hf : pyGet entries "firstname" = some (.str f))
    (hl : pyGet entries "lastname" = some (.str l))
    (hph : pyGet entries "phoneNumber" = some (.str ph))
    (he0 : e ≠ "") (hp0 : p ≠ "") (hf0 : f ≠ "") (hl0 : l ≠ "") (hph0 : ph ≠ "") :
    missing_fields entries = [] := by
  simp [missing_fields, required_fields, he, hp, hf, hl, hph, Json.truthy,
    he0, hp0, hf0, hl0, hph0]

/-- A fully concrete valid request body, used by the witnesses. -/
def demo_request : List (String × Json) :=
  [("email", .str "a@b.c"), ("password", .str "pw"), ("firstname", .str "Jo"),
   ("lastname", .str "Doe"), ("phoneNumber", .str "123")]

/-! ### Claim theorems -/

/-- C1 counterexample: the empty JSON object is a JSON-object body missing all
five required fields, yet the handler answers 400 with the message
"No JSON data provided" (the falsy-body check at line 133 fires first), not
with a list of the missing fields. -/
theorem c1_empty_object_counterexample :
    create_simple_account true (Json.obj []) .timeout =
      ⟨400, Json.obj [("success", .bool false), ("error", .str "No JSON data provided")]⟩
    ∧ "No JSON data provided" ≠
      "Missing required fields: email, password, firstname, lastname, phoneNumber" :=
  ⟨rfl, by decide⟩

/-- C1 (amended): for every non-empty JSON-object body for which at least one
required field is missing, empty, or otherwise falsy, the response is 400 and
the error message lists every missing field, comma-joined, in the fixed
required-field order: the reported list is a sublist of the required-field
list and contains every required field whose value is absent or falsy. -/
theorem c1_missing_fields_all_reported (entries : List (String × Json))
    (outcome : UpstreamOutcome) (hne : entries ≠ [])
    (hmiss : missing_fields entries ≠ []) :
    create_simple_account true (Json.obj entries) outcome =
      ⟨400, Json.obj [("success", .bool false),
        ("error", .str ("Missing required fields: "
          ++ String.intercalate ", " (missing_fields entries)))]⟩
    ∧ (missing_fields entries).Sublist required_fields
    ∧ ∀ field ∈ required_fields,
        ((pyGet entries field).getD Json.null).truthy = false →
          field ∈ missing_fields entries := by
  refine ⟨?_, List.filter_sublist _, ?_⟩
  · simp [create_simple_account, try_create_simple_account, validate, Json.truthy, hne,
      hmiss, Bind.bind, Except.bind, Pure.pure, Except.pure]
  · intro field hfield hfalse
    simp [missing_fields, List.mem_filter, hfield, hfalse]

/-- Witness for C1: a body holding only an email gets back the other four
required fields, in order. -/
theorem c1_missing_fields_all_reported_witness :
    create_simple_account true (Json.obj [("email", Json.str "a")]) .timeout =
      ⟨400, Json.obj [("success", .bool false),
        ("error", .str ("Missing required fields: "
          ++ String.intercalate ", " (missing_fields [("email", Json.str "a")])))]⟩
    ∧ (missing_fields [("email", Json.str "a")]).Sublist required_fields
    ∧ ∀ field ∈ required_fields,
        ((pyGet [("email", Json.str "a")] field).getD Json.null).truthy = false →
          field ∈ missing_fields [("email", Json.str "a")] :=
  c1_missing_fields_all_reported [("email", Json.str "a")] .timeout
    (List.cons_ne_nil _ _) (by decide)

/-- C2: for every request whose five required fields are non-empty strings,
validation passes and the upstream payload nests the stripped firstname and
lastname under personalDetails, the stripped phoneNumber under
contactDetails, and carries the stripped email at top level, whatever offer
and createAsDepositedAccount hold; when offer is absent the payload carries
the fixed default offer identifier, and when createAsDepositedAccount is
absent it carries false. -/
theorem c2_payload_structure_and_defaults (entries : List (String × Json))
    (e p f l ph : String)
    (he : pyGet entries "email" = some (.str e))
    (hp : pyGet entries "password" = some (.str p))
    (hf : pyGet entries "firstname" = some (.str f))
    (hl : pyGet entries "lastname" = some (.str l))
    (hph : pyGet entries "phoneNumber" = some (.str ph))
    (he0 : e ≠ "") (hp0 : p ≠ "") (hf0 : f ≠ "") (hl0 : l ≠ "") (hph0 : ph ≠ "") :
    missing_fields entries = []
    ∧ build_account_data (Json.obj entries) = .ok (Json.obj [
      ("email", .str (strip e)),
      ("password", .str p),
      ("offer", (pyGet entries "offer").getD (.str default_offer)),
      ("createAsDepositedAccount",
        (pyGet entries "createAsDepositedAccount").getD (.bool false)),
      ("personalDetails", Json.obj [("firstname", .str (strip f)),
        ("lastname", .str (strip l))]),
      ("contactDetails", Json.obj [("phoneNumber", .str (strip ph))])])
    ∧ (pyGet entries "offer" = none →
      build_account_data (Json.obj entries) = .ok (Json.obj [
        ("email", .str (strip e)),
        ("password", .str p),
        ("offer", .str default_offer),
        ("createAsDepositedAccount",
          (pyGet entries "createAsDepositedAccount").getD (.bool false)),
        ("personalDetails", Json.obj [("firstname", .str (strip f)),
          ("lastname", .str (strip l))]),
        ("contactDetails", Json.obj [("phoneNumber", .str (strip ph))])]))
    ∧ (pyGet entries "createAsDepositedAccount" = none →
      build_account_data (Json.obj entries) = .ok (Json.obj [
        ("email", .str (strip e)),
        ("password", .str p),
        ("offer", (pyGet entries "offer").getD (.str default_offer)),
        ("createAsDepositedAccount", .bool false),
        ("personalDetails", Json.obj [("firstname", .str (strip f)),
          ("lastname", .str (strip l))]),
        ("contactDetails", Json.obj [("phoneNumber", .str (strip ph))])])) := by
  refine ⟨missing_fields_nil entries e p f l ph he hp hf hl hph he0 hp0 hf0 hl0 hph0,
    build_account_data_ok entries e p f l ph he hp hf hl hph, ?_, ?_⟩
  · intro hoffer
    rw [build_account_data_ok entries e p f l ph he hp hf hl hph, hoffer]
    rfl
  · intro hcada
    rw [build_account_data_ok entries e p f l ph he hp hf hl hph, hcada]
    rfl

/-- Witness for C2 at a concrete request, with both absence implications
discharged (demo_request carries neither offer nor createAsDepositedAccount). -/
theorem c2_payload_structure_and_defaults_witness :
    missing_fields demo_request = []
    ∧ build_account_data (Json.obj demo_request) = .ok (Json.obj [
      ("email", .str (strip "a@b.c")),
      ("password", .str "pw"),
      ("offer", (pyGet demo_request "offer").getD (.str default_offer)),
      ("createAsDepositedAccount",
        (pyGet demo_request "createAsDepositedAccount").getD (.bool false)),
      ("personalDetails", Json.obj [("firstname", .str (strip "Jo")),
        ("lastname", .str (strip "Doe"))]),
      ("contactDetails", Json.obj [("phoneNumber", .str (strip "123"))])])
    ∧ build_account_data (Json.obj demo_request) = .ok (Json.obj [
      ("email", .str (strip "a@b.c")),
      ("password", .str "pw"),
      ("offer", .str default_offer),
      ("createAsDepositedAccount",
        (pyGet demo_request "createAsDepositedAccount").getD (.bool false)),
      ("personalDetails", Json.obj [("firstname", .str (strip "Jo")),
        ("lastname", .str (strip "Doe"))]),
      ("contactDetails", Json.obj [("phoneNumber", .str (strip "123"))])])
    ∧ build_account_data (Json.obj demo_request) = .ok (Json.obj [
      ("email", .str (strip "a@b.c")),
      ("password", .str "pw"),
      ("offer", (pyGet demo_request "offer").getD (.str default_offer)),
      ("createAsDepositedAccount", .bool false),
      ("personalDetails", Json.obj [("firstname", .str (strip "Jo")),
        ("lastname", .str (strip "Doe"))]),
      ("contactDetails", Json.obj [("phoneNumber", .str (strip "123"))])]) :=
  ⟨(c2_payload_structure_and_defaults demo_request "a@b.c" "pw" "Jo" "Doe" "123"
      rfl rfl rfl rfl rfl (by decide) (by decide) (by decide) (by decide) (by decide)).1,
   (c2_payload_structure_and_defaults demo_request "a@b.c" "pw" "Jo" "Doe" "123"
      rfl rfl rfl rfl rfl (by decide) (by decide) (by decide) (by decide) (by decide)).2.1,
   (c2_payload_structure_and_defaults demo_request "a@b.c" "pw" "Jo" "Doe" "123"
      rfl rfl rfl rfl rfl (by decide) (by decide) (by decide) (by decide) (by decide)).2.2.1
     rfl,
   (c2_payload_structure_and_defaults demo_request "a@b.c" "pw" "Jo" "Doe" "123"
      rfl rfl rfl rfl rfl (by decide) (by decide) (by decide) (by decide) (by decide)).2.2.2
     rfl⟩

/-- C3: with a valid request, an upstream response with status 200 or 201 is
relayed as overall HTTP 200 with the success envelope carrying the upstream
status and parsed body, while any other upstream status is mirrored as the
overall HTTP status with the failure envelope carrying that status and the
parsed body. -/
theorem c3_upstream_status_relayed (entries : List (String × Json))
    (e p f l ph : String)
    (he : pyGet entries "email" = some (.str e))
    (hp : pyGet entries "password" = some (.str p))
    (hf : pyGet entries "firstname" = some (.str f))
    (hl : pyGet entries "lastname" = some (.str l))
    (hph : pyGet entries "phoneNumber" = some (.str ph))
    (he0 : e ≠ "") (hp0 : p ≠ "") (hf0 : f ≠ "") (hl0 : l ≠ "") (hph0 : ph ≠ "")
    (status : Nat) (body : UpstreamBody) :
    ((status = 200 ∨ status = 201) →
      create_simple_account true (Json.obj entries) (.response status body) =
        ⟨200, Json.obj [
          ("success", .bool true),
          ("status_code", .num status),
          ("data", parse_response_body body),
          ("message", .str "Account created successfully")]⟩)
    ∧ (status ≠ 200 → status ≠ 201 →
      create_simple_account true (Json.obj entries) (.response status body) =
        ⟨status, Json.obj [
          ("success", .bool false),
          ("status_code", .num status),
          ("data", parse_response_body body),
          ("message", .str "Account creation failed")]⟩) := by
  have hne := pyGet_some_ne_nil he
  have hmiss := missing_fields_nil entries e p f l ph he hp hf hl hph he0 hp0 hf0 hl0 hph0
  have hbuild := build_account_data_ok entries e p f l ph he hp hf hl hph
  constructor
  · rintro (rfl | rfl) <;>
      simp [create_simple_account, try_create_simple_account, validate, hmiss, hbuild,
        Json.truthy, hne, Bind.bind, Except.bind, Pure.pure, Except.pure, create_account,
        pyIndex, pyGet, http_status_of_result]
  · intro h200 h201
    have hb : (status == 200 || status == 201) = false := by
      simp [h200, h201]
    simp [create_simple_account, try_create_simple_account, validate, hmiss, hbuild,
      Json.truthy, hne, Bind.bind, Except.bind, Pure.pure, Except.pure, create_account,
      pyIndex, pyGet, http_status_of_result, hb]

/-- Witness for C3: upstream 201 with body containing id abc gives overall 200
success, and upstream 409 with a duplicate-error body gives overall 409
failure carrying that body. -/
theorem c3_upstream_status_relayed_witness :
    create_simple_account true (Json.obj demo_request)
        (.response 201 (.jsonBody (.obj [("id", .str "abc")]))) =
      ⟨200, Json.obj [
        ("success", .bool true),
        ("status_code", .num 201),
        ("data", parse_response_body (.jsonBody (.obj [("id", .str "abc")]))),
        ("message", .str "Account created successfully")]⟩
    ∧ create_simple_account true (Json.obj demo_request)
        (.response 409 (.jsonBody (.obj [("error", .str "duplicate")]))) =
      ⟨409, Json.obj [
        ("success", .bool false),
        ("status_code", .num 409),
        ("data", parse_response_body (.jsonBody (.obj [("error", .str "duplicate")]))),
        ("message", .str "Account creation failed")]⟩ :=
  ⟨(c3_upstream_status_relayed demo_request "a@b.c" "pw" "Jo" "Doe" "123"
      rfl rfl rfl rfl rfl (by decide) (by decide) (by decide) (by decide) (by decide)
      201 (.jsonBody (.obj [("id", .str "abc")]))).1 (Or.inr rfl),
   (c3_upstream_status_relayed demo_request "a@b.c" "pw" "Jo" "Doe" "123"
      rfl rfl rfl rfl rfl (by decide) (by decide) (by decide) (by decide) (by decide)
      409 (.jsonBody (.obj [("error", .str "duplicate")]))).2 (by decide) (by decide)⟩

/-- C4: with a valid request, each outbound-call failure without an upstream
status (timeout, connection failure, other request exception, unexpected
internal fault during the call) yields overall HTTP 500 with the envelope
success false, the fixed reason string for that failure class, and a null
status_code; in particular a timeout yields the fixed timed-out reason. -/
theorem c4_no_status_failures_500 (entries : List (String × Json))
    (e p f l ph : String)
    (he : pyGet entries "email" = some (.str e))
    (hp : pyGet entries "password" = some (.str p))
    (hf : pyGet entries "firstname" = some (.str f))
    (hl : pyGet entries "lastname" = some (.str l))
    (hph : pyGet entries "phoneNumber" = some (.str ph))
    (he0 : e ≠ "") (hp0 : p ≠ "") (hf0 : f ≠ "") (hl0 : l ≠ "") (hph0 : ph ≠ "")
    (m : String) :
    create_simple_account true (Json.obj entries) .timeout =
      ⟨500, Json.obj [("success", .bool false),
        ("error", .str "Request timed out. Please try again."), ("status_code", .null)]⟩
    ∧ create_simple_account true (Json.obj entries) (.connectionError m) =
      ⟨500, Json.obj [("success", .bool false),
        ("error", .str "Connection error. Please check your internet connection."),
        ("status_code", .null)]⟩
    ∧ create_simple_account true (Json.obj entries) (.requestError m) =
      ⟨500, Json.obj [("success", .bool false),
        ("error", .str "Network error occurred. Please try again."), ("status_code", .null)]⟩
    ∧ create_simple_account true (Json.obj entries) (.unexpectedError m) =
      ⟨500, Json.obj [("success", .bool false),
        ("error", .str "An unexpected error occurred. Please try again."),
        ("status_code", .null)]⟩ := by
  have hne := pyGet_some_ne_nil he
  have hmiss := missing_fields_nil entries e p f l ph he hp hf hl hph he0 hp0 hf0 hl0 hph0
  have hbuild := build_account_data_ok entries e p f l ph he hp hf hl hph
  refine ⟨?_, ?_, ?_, ?_⟩ <;>
    simp [create_simple_account, try_create_simple_account, validate, hmiss, hbuild,
      Json.truthy, hne, Bind.bind, Except.bind, Pure.pure, Except.pure, create_account,
      pyIndex, pyGet, http_status_of_result]

/-- Witness for C4 at a concrete request: each of the four failure classes
yields its fixed envelope with null status_code and overall 500. -/
theorem c4_no_status_failures_500_witness :
    create_simple_account true (Json.obj demo_request) .timeout =
      ⟨500, Json.obj [("success", .bool false),
        ("error", .str "Request timed out. Please try again."), ("status_code", .null)]⟩
    ∧ create_simple_account true (Json.obj demo_request) (.connectionError "boom") =
      ⟨500, Json.obj [("success", .bool false),
        ("error", .str "Connection error. Please check your internet connection."),
        ("status_code", .null)]⟩
    ∧ create_simple_account true (Json.obj demo_request) (.requestError "boom") =
      ⟨500, Json.obj [("success", .bool false),
        ("error", .str "Network error occurred. Please try again."), ("status_code", .null)]⟩
    ∧ create_simple_account true (Json.obj demo_request) (.unexpectedError "boom") =
      ⟨500, Json.obj [("success", .bool false),
        ("error", .str "An unexpected error occurred. Please try again."),
        ("status_code", .null)]⟩ :=
  c4_no_status_failures_500 demo_request "a@b.c" "pw" "Jo" "Doe" "123"
    rfl rfl rfl rfl rfl (by decide) (by decide) (by decide) (by decide) (by decide) "boom"

/-- C5 counterexample: with password bound to the string " secret " in an
otherwise valid request, the transmitted payload keeps the untrimmed
" secret ", so not every string field is trimmed before transmission. -/
theorem c5_password_not_trimmed_counterexample :
    build_account_data (Json.obj [("email", .str "a@b.c"), ("password", .str " secret "),
      ("firstname", .str "Jo"), ("lastname", .str "Doe"), ("phoneNumber", .str "123")]) =
      .ok (Json.obj [
        ("email", .str (strip "a@b.c")),
        ("password", .str " secret "),
        ("offer", .str default_offer),
        ("createAsDepositedAccount", .bool false),
        ("personalDetails", Json.obj [("firstname", .str (strip "Jo")),
          ("lastname", .str (strip "Doe"))]),
        ("contactDetails", Json.obj [("phoneNumber", .str (strip "123"))])])
    ∧ " secret " ≠ strip " secret " :=
  ⟨rfl, by decide⟩

/-- C5 (amended): only email, firstname, lastname and phoneNumber are trimmed
of surrounding whitespace before transmission; password, and offer when
provided, are transmitted exactly as given, untrimmed. -/
theorem c5_only_four_fields_trimmed (entries : List (String × Json))
    (e p f l ph o : String)
    (he : pyGet entries "email" = some (.str e))
    (hp : pyGet entries "password" = some (.str p))
    (hf : pyGet entries "firstname" = some (.str f))
    (hl : pyGet entries "lastname" = some (.str l))
    (hph : pyGet entries "phoneNumber" = some (.str ph))
    (hoffer : pyGet entries "offer" = some (.str o)) :
    build_account_data (Json.obj entries) = .ok (Json.obj [
      ("email", .str (strip e)),
      ("password", .str p),
      ("offer", .str o),
      ("createAsDepositedAccount",
        (pyGet entries "createAsDepositedAccount").getD (.bool false)),
      ("personalDetails", Json.obj [("firstname", .str (strip f)),
        ("lastname", .str (strip l))]),
      ("contactDetails", Json.obj [("phoneNumber", .str (strip ph))])]) := by
  rw [build_account_data_ok entries e p f l ph he hp hf hl hph, hoffer]
  rfl

/-- Witness for the amended C5: password and offer come through untrimmed
while the other fields are stripped. -/
theorem c5_only_four_fields_trimmed_witness :
    build_account_data (Json.obj [("email", .str " a@b.c "), ("password", .str " secret "),
      ("firstname", .str "Jo"), ("lastname", .str "Doe"), ("phoneNumber", .str "123"),
      ("offer", .str " off ")]) = .ok (Json.obj [
      ("email", .str (strip " a@b.c ")),
      ("password", .str " secret "),
      ("offer", .str " off "),
      ("createAsDepositedAccount",
        (pyGet [("email", .str " a@b.c "), ("password", .str " secret "),
          ("firstname", .str "Jo"), ("lastname", .str "Doe"), ("phoneNumber", .str "123"),
          ("offer", .str " off ")] "createAsDepositedAccount").getD (.bool false)),
      ("personalDetails", Json.obj [("firstname", .str (strip "Jo")),
        ("lastname", .str (strip "Doe"))]),
      ("contactDetails", Json.obj [("phoneNumber", .str (strip "123"))])]) :=
  c5_only_four_fields_trimmed _ " a@b.c " " secret " "Jo" "Doe" "123" " off "
    rfl rfl rfl rfl rfl rfl

/-- C6 counterexample: a body that is a non-empty JSON array reaches the
field-validation line, where data.get raises AttributeError; the catch-all
turns this into HTTP 500 with the internal-server-error envelope, not the 400
malformed-body rejection the claim states. -/
theorem c6_array_body_counterexample :
    create_simple_account true (Json.arr [Json.str "x"]) .timeout =
      ⟨500, Json.obj [("success", .bool false),
        ("error", .str "Internal server error occurred")]⟩
    ∧ (500 : Nat) ≠ 400 :=
  ⟨rfl, by decide⟩

/-- C6 (amended): a body that is valid JSON but not a JSON object is rejected
before any outbound call (the response never depends on the upstream
outcome); a truthy non-object body yields HTTP 500 with the fixed
internal-server-error envelope, because the data.get attribute fault is
caught by the catch-all, while a falsy non-object body yields 400 with the
No-JSON-data envelope. -/
theorem c6_non_object_rejected (data : Json)
    (hno : ∀ entries, data ≠ Json.obj entries)
    (o1 o2 : UpstreamOutcome) :
    (data.truthy = true →
      create_simple_account true data o1 =
        ⟨500, Json.obj [("success", .bool false),
          ("error", .str "Internal server error occurred")]⟩)
    ∧ (data.truthy = false →
      create_simple_account true data o1 =
        ⟨400, Json.obj [("success", .bool false), ("error", .str "No JSON data provided")]⟩)
    ∧ create_simple_account true data o1 = create_simple_account true data o2 := by
  have hval : ∃ msg, validate data = .error (.attributeError msg) := by
    cases data with
    | obj entries => exact absurd rfl (hno entries)
    | null => exact ⟨_, rfl⟩
    | bool b => exact ⟨_, rfl⟩
    | num n => exact ⟨_, rfl⟩
    | str s => exact ⟨_, rfl⟩
    | arr elems => exact ⟨_, rfl⟩
  obtain ⟨msg, hval⟩ := hval
  refine ⟨?_, ?_, ?_⟩
  · intro ht
    simp [create_simple_account, try_create_simple_account, ht, hval,
      Bind.bind, Except.bind, Pure.pure, Except.pure]
  · intro ht
    simp [create_simple_account, try_create_simple_account, ht,
      Bind.bind, Except.bind, Pure.pure, Except.pure]
  · cases ht : data.truthy
    · simp [create_simple_account, try_create_simple_account, ht,
        Bind.bind, Except.bind, Pure.pure, Except.pure]
    · simp [create_simple_account, try_create_simple_account, ht, hval,
        Bind.bind, Except.bind, Pure.pure, Except.pure]

/-- Witness for the amended C6 on a non-empty array body. -/
theorem c6_non_object_rejected_witness :
    ((Json.arr [Json.str "x"]).truthy = true →
      create_simple_account true (Json.arr [Json.str "x"]) .timeout =
        ⟨500, Json.obj [("success", .bool false),
          ("error", .str "Internal server error occurred")]⟩)
    ∧ ((Json.arr [Json.str "x"]).truthy = false →
      create_simple_account true (Json.arr [Json.str "x"]) .timeout =
        ⟨400, Json.obj [("success", .bool false), ("error", .str "No JSON data provided")]⟩)
    ∧ create_simple_account true (Json.arr [Json.str "x"]) .timeout
      = create_simple_account true (Json.arr [Json.str "x"]) (.connectionError "dns failure") :=
  c6_non_object_rejected (Json.arr [Json.str "x"])
    (fun _ h => Json.noConfusion h) .timeout (.connectionError "dns failure")

/-- The handler result depends on the upstream outcome only through the
result dict built by create_account. -/
theorem try_create_congr (is_json : Bool) (data : Json) (o1 o2 : UpstreamOutcome)
    (h : ∀ ad, create_account ad o1 = create_account ad o2) :
    try_create_simple_account is_json data o1 = try_create_simple_account is_json data o2 := by
  unfold try_create_simple_account
  simp only [h]

/-- C7: the client-facing body for each transport failure class is a fixed
constant, independent of the exception text (two executions differing only in
that text produce identical responses), and any internal Python fault is
mapped by the catch-all to the fixed internal-server-error envelope whatever
the exception was. -/
theorem c7_stable_error_strings (is_json : Bool) (data : Json) (m1 m2 : String) :
    create_simple_account is_json data (.connectionError m1)
      = create_simple_account is_json data (.connectionError m2)
    ∧ create_simple_account is_json data (.requestError m1)
      = create_simple_account is_json data (.requestError m2)
    ∧ create_simple_account is_json data (.unexpectedError m1)
      = create_simple_account is_json data (.unexpectedError m2)
    ∧ ∀ (outcome : UpstreamOutcome) (err : PyError),
        try_create_simple_account is_json data outcome = .error err →
          create_simple_account is_json data outcome =
            ⟨500, Json.obj [("success", .bool false),
              ("error", .str "Internal server error occurred")]⟩ := by
  refine ⟨?_, ?_, ?_, ?_⟩
  · unfold create_simple_account
    rw [try_create_congr is_json data (.connectionError m1) (.connectionError m2)
      (fun ad => rfl)]
  · unfold create_simple_account
    rw [try_create_congr is_json data (.requestError m1) (.requestError m2)
      (fun ad => rfl)]
  · unfold create_simple_account
    rw [try_create_congr is_json data (.unexpectedError m1) (.unexpectedError m2)
      (fun ad => rfl)]
  · intro outcome err herr
    unfold create_simple_account
    rw [herr]

/-- Witness for C7: two different connection-error texts give the same
response, and a concrete internal fault is mapped to the fixed envelope. -/
theorem c7_stable_error_strings_witness :
    create_simple_account true (Json.arr [Json.str "x"]) (.connectionError "dns failure")
      = create_simple_account true (Json.arr [Json.str "x"]) (.connectionError "conn reset")
    ∧ create_simple_account true (Json.arr [Json.str "x"]) .timeout =
      ⟨500, Json.obj [("success", .bool false),
        ("error", .str "Internal server error occurred")]⟩ :=
  ⟨(c7_stable_error_strings true (Json.arr [Json.str "x"]) "dns failure" "conn reset").1,
   (c7_stable_error_strings true (Json.arr [Json.str "x"]) "dns failure" "conn reset").2.2.2
     .timeout (.attributeError "list object has no attribute get") rfl⟩

/-- C8: with all five required fields bound to non-empty strings of which at
least one of email, firstname, lastname, phoneNumber is whitespace-only
(strips to the empty string), validation passes, the payload carries the
stripped values (hence the empty string for each whitespace-only field), and
the outbound call is made: a 201 upstream response produces the success
envelope. -/
theorem c8_whitespace_only_passes_validation (entries : List (String × Json))
    (e p f l ph : String)
    (he : pyGet entries "email" = some (.str e))
    (hp : pyGet entries "password" = some (.str p))
    (hf : pyGet entries "firstname" = some (.str f))
    (hl : pyGet entries "lastname" = some (.str l))
    (hph : pyGet entries "phoneNumber" = some (.str ph))
    (he0 : e ≠ "") (hp0 : p ≠ "") (hf0 : f ≠ "") (hl0 : l ≠ "") (hph0 : ph ≠ "")
    (hws : strip e = "" ∨ strip f = "" ∨ strip l = "" ∨ strip ph = "") :
    missing_fields entries = []
    ∧ build_account_data (Json.obj entries) = .ok (Json.obj [
        ("email", .str (strip e)),
        ("password", .str p),
        ("offer", (pyGet entries "offer").getD (.str default_offer)),
        ("createAsDepositedAccount",
          (pyGet entries "createAsDepositedAccount").getD (.bool false)),
        ("personalDetails", Json.obj [("firstname", .str (strip f)),
          ("lastname", .str (strip l))]),
        ("contactDetails", Json.obj [("phoneNumber", .str (strip ph))])])
    ∧ create_simple_account true (Json.obj entries) (.response 201 .empty) =
      ⟨200, Json.obj [("success", .bool true), ("status_code", .num 201),
        ("data", Json.obj []), ("message", .str "Account created successfully")]⟩ := by
  have hne := pyGet_some_ne_nil he
  have hmiss := missing_fields_nil entries e p f l ph he hp hf hl hph he0 hp0 hf0 hl0 hph0
  have hbuild := build_account_data_ok entries e p f l ph he hp hf hl hph
  refine ⟨hmiss, hbuild, ?_⟩
  simp [create_simple_account, try_create_simple_account, validate, hmiss, hbuild,
    Json.truthy, hne, Bind.bind, Except.bind, Pure.pure, Except.pure, create_account,
    pyIndex, pyGet, http_status_of_result, parse_response_body]

/-- Witness for C8: a whitespace-only email passes validation and the call
goes out with the empty string as email. -/
theorem c8_whitespace_only_passes_validation_witness :
    missing_fields [("email", Json.str " "), ("password", Json.str "pw"),
      ("firstname", Json.str "Jo"), ("lastname", Json.str "Doe"),
      ("phoneNumber", Json.str "123")] = []
    ∧ build_account_data (Json.obj [("email", Json.str " "), ("password", Json.str "pw"),
        ("firstname", Json.str "Jo"), ("lastname", Json.str "Doe"),
        ("phoneNumber", Json.str "123")]) = .ok (Json.obj [
        ("email", .str (strip " ")),
        ("password", .str "pw"),
        ("offer", (pyGet [("email", Json.str " "), ("password", Json.str "pw"),
          ("firstname", Json.str "Jo"), ("lastname", Json.str "Doe"),
          ("phoneNumber", Json.str "123")] "offer").getD (.str default_offer)),
        ("createAsDepositedAccount",
          (pyGet [("email", Json.str " "), ("password", Json.str "pw"),
            ("firstname", Json.str "Jo"), ("lastname", Json.str "Doe"),
            ("phoneNumber", Json.str "123")] "createAsDepositedAccount").getD (.bool false)),
        ("personalDetails", Json.obj [("firstname", .str (strip "Jo")),
          ("lastname", .str (strip "Doe"))]),
        ("contactDetails", Json.obj [("phoneNumber", .str (strip "123"))])])
    ∧ create_simple_account true (Json.obj [("email", Json.str " "),
        ("password", Json.str "pw"), ("firstname", Json.str "Jo"),
        ("lastname", Json.str "Doe"), ("phoneNumber", Json.str "123")])
        (.response 201 .empty) =
      ⟨200, Json.obj [("success", .bool true), ("status_code", .num 201),
        ("data", Json.obj []), ("message", .str "Account created successfully")]⟩ :=
  c8_whitespace_only_passes_validation _ " " "pw" "Jo" "Doe" "123"
    rfl rfl rfl rfl rfl (by decide) (by decide) (by decide) (by decide) (by decide)
    (Or.inl (by decide))

/-- If the payload builder succeeds, the four stripped fields were present
with string values (inversion of the strip calls at lines 155-164). -/
theorem build_ok_strip_fields {entries : List (String × Json)} {payload : Json}
    (hok : build_account_data (Json.obj entries) = .ok payload) :
    ∃ e pw f l ph, pyGet entries "email" = some (Json.str e)
      ∧ pyGet entries "password" = some pw
      ∧ pyGet entries "firstname" = some (Json.str f)
      ∧ pyGet entries "lastname" = some (Json.str l)
      ∧ pyGet entries "phoneNumber" = some (Json.str ph) := by
  unfold build_account_data at hok
  rw [except_bind_ok_iff] at hok
  obtain ⟨email, hemail, hok⟩ := hok
  rw [except_bind_ok_iff] at hemail
  obtain ⟨v1, hv1, hs1⟩ := hemail
  obtain ⟨s1, rfl, rfl⟩ := pyStrip_eq_ok hs1
  rw [pyIndex_obj_eq_ok] at hv1
  rw [except_bind_ok_iff] at hok
  obtain ⟨pw, hpw, hok⟩ := hok
  rw [pyIndex_obj_eq_ok] at hpw
  rw [except_bind_ok_iff] at hok
  obtain ⟨offerOpt, hoffer, hok⟩ := hok
  rw [except_bind_ok_iff] at hok
  obtain ⟨cadaOpt, hcada, hok⟩ := hok
  rw [except_bind_ok_iff] at hok
  obtain ⟨fn, hfn, hok⟩ := hok
  rw [except_bind_ok_iff] at hfn
  obtain ⟨v2, hv2, hs2⟩ := hfn
  obtain ⟨s2, rfl, rfl⟩ := pyStrip_eq_ok hs2
  rw [pyIndex_obj_eq_ok] at hv2
  rw [except_bind_ok_iff] at hok
  obtain ⟨ln, hln, hok⟩ := hok
  rw [except_bind_ok_iff] at hln
  obtain ⟨v3, hv3, hs3⟩ := hln
  obtain ⟨s3, rfl, rfl⟩ := pyStrip_eq_ok hs3
  rw [pyIndex_obj_eq_ok] at hv3
  rw [except_bind_ok_iff] at hok
  obtain ⟨pn, hpn, hok⟩ := hok
  rw [except_bind_ok_iff] at hpn
  obtain ⟨v4, hv4, hs4⟩ := hpn
  obtain ⟨s4, rfl, rfl⟩ := pyStrip_eq_ok hs4
  rw [pyIndex_obj_eq_ok] at hv4
  exact ⟨s1, pw, s2, s3, s4, hv1, hpw, hv2, hv3, hv4⟩

/-- C9: when one of email, firstname, lastname, phoneNumber is bound to a
truthy non-string value while validation passes, payload construction faults
on the strip call and the catch-all returns HTTP 500 with the fixed
internal-server-error envelope instead of a 400 validation error. -/
theorem c9_nonstring_field_internal_error (entries : List (String × Json))
    (field : String) (v : Json) (outcome : UpstreamOutcome)
    (hfield : field = "email" ∨ field = "firstname" ∨ field = "lastname"
      ∨ field = "phoneNumber")
    (hv : pyGet entries field = some v)
    (hvt : v.truthy = true)
    (hstr : ∀ s, v ≠ Json.str s)
    (hmiss : missing_fields entries = []) :
    create_simple_account true (Json.obj entries) outcome =
      ⟨500, Json.obj [("success", .bool false),
        ("error", .str "Internal server error occurred")]⟩ := by
  have hne := pyGet_some_ne_nil hv
  have hbuild : ∀ payload, build_account_data (Json.obj entries) ≠ .ok payload := by
    intro payload hok
    obtain ⟨e, pw, f, l, ph, he, hp, hf, hl, hph⟩ := build_ok_strip_fields hok
    rcases hfield with rfl | rfl | rfl | rfl
    · rw [hv] at he
      injection he with h
      exact hstr e h
    · rw [hv] at hf
      injection hf with h
      exact hstr f h
    · rw [hv] at hl
      injection hl with h
      exact hstr l h
    · rw [hv] at hph
      injection hph with h
      exact hstr ph h
  obtain ⟨err, herr⟩ : ∃ err, build_account_data (Json.obj entries) = .error err := by
    cases hb : build_account_data (Json.obj entries) with
    | ok payload => exact absurd hb (hbuild payload)
    | error err => exact ⟨err, rfl⟩
  simp [create_simple_account, try_create_simple_account, validate, hmiss, herr,
    Json.truthy, hne, Bind.bind, Except.bind, Pure.pure, Except.pure]

/-- Witness for C9: a numeric email passes validation and ends in the fixed
500 internal-server-error envelope. -/
theorem c9_nonstring_field_internal_error_witness :
    create_simple_account true (Json.obj [("email", Json.num 5),
      ("password", Json.str "pw"), ("firstname", Json.str "Jo"),
      ("lastname", Json.str "Doe"), ("phoneNumber", Json.str "123")]) .timeout =
      ⟨500, Json.obj [("success", .bool false),
        ("error", .str "Internal server error occurred")]⟩ :=
  c9_nonstring_field_internal_error _ "email" (Json.num 5) .timeout
    (Or.inl rfl) rfl (by decide) (fun _ h => Json.noConfusion h) (by decide)

/-- C10: a required field bound to the falsy values false, 0 or null is
reported missing exactly as if the key were absent: the missing-field list
and the full HTTP response coincide with those of the body without the
binding. -/
theorem c10_falsy_value_treated_as_absent (entries : List (String × Json))
    (field : String) (v : Json) (outcome : UpstreamOutcome)
    (hfield : field ∈ required_fields)
    (habs : ∀ pair ∈ entries, pair.1 ≠ field)
    (hv : v = Json.bool false ∨ v = Json.num 0 ∨ v = Json.null)
    (hne : entries ≠ []) :
    missing_fields ((field, v) :: entries) = missing_fields entries
    ∧ create_simple_account true (Json.obj ((field, v) :: entries)) outcome
      = create_simple_account true (Json.obj entries) outcome := by
  have hnone := pyGet_eq_none habs
  have htruthy : v.truthy = false := by
    rcases hv with rfl | rfl | rfl <;> rfl
  have h1 : missing_fields ((field, v) :: entries) = missing_fields entries := by
    unfold missing_fields
    apply List.filter_congr
    intro g hg
    rw [pyGet_cons]
    by_cases hgf : field = g
    · subst hgf
      have hnull : Json.null.truthy = false := rfl
      simp [hnone, htruthy, hnull]
    · simp [hgf]
  have hmem : field ∈ missing_fields entries := by
    unfold missing_fields
    rw [List.mem_filter]
    exact ⟨hfield, by simp [hnone, Json.truthy]⟩
  have hmiss_ne : missing_fields entries ≠ [] := by
    intro h0
    rw [h0] at hmem
    exact absurd hmem (List.not_mem_nil _)
  have hmiss_ne' : missing_fields ((field, v) :: entries) ≠ [] := by
    rw [h1]
    exact hmiss_ne
  refine ⟨h1, ?_⟩
  have e1 : create_simple_account true (Json.obj ((field, v) :: entries)) outcome =
      ⟨400, Json.obj [("success", .bool false),
        ("error", .str ("Missing required fields: "
          ++ String.intercalate ", " (missing_fields ((field, v) :: entries))))]⟩ := by
    simp [create_simple_account, try_create_simple_account, validate, Json.truthy,
      hmiss_ne', Bind.bind, Except.bind, Pure.pure, Except.pure]
  have e2 : create_simple_account true (Json.obj entries) outcome =
      ⟨400, Json.obj [("success", .bool false),
        ("error", .str ("Missing required fields: "
          ++ String.intercalate ", " (missing_fields entries)))]⟩ := by
    simp [create_simple_account, try_create_simple_account, validate, Json.truthy,
      hne, hmiss_ne, Bind.bind, Except.bind, Pure.pure, Except.pure]
  rw [e1, e2, h1]

/-- Witness for C10: a null email together with a password-only body is
reported exactly like the body without the email key. -/
theorem c10_falsy_value_treated_as_absent_witness :
    missing_fields [("email", Json.null), ("password", Json.str "pw")]
      = missing_fields [("password", Json.str "pw")]
    ∧ create_simple_account true
        (Json.obj [("email", Json.null), ("password", Json.str "pw")]) .timeout
      = create_simple_account true (Json.obj [("password", Json.str "pw")]) .timeout :=
  c10_falsy_value_treated_as_absent [("password", Json.str "pw")] "email" Json.null
    .timeout (by decide) (by decide) (Or.inr (Or.inr rfl)) (List.cons_ne_nil _ _)

end App
